import Mathlib

/-!
Shallow embedding of `meetstation.py` (effevee/effevees_weerstation).

Each Python function with side effects is modelled as a pure Lean function
over an explicit environment recording the results of its external calls
(wifi polls, HTTP response, I2C bus scans, sensor reads, MQTT operations).
Exceptions are modelled with `Except`; numbers are modelled with `ℚ`
(Python float arithmetic taken exactly).
-/

namespace Meetstation

/-- Static configuration (`config.py`): the fields the core cycle reads. -/
structure Config where
  station_id : String
  city : String
  fahrenheit : Bool
  interval : Nat
  maxTries : Nat

/-- `temperature_2_unit(celsius)`: convert Celsius to Fahrenheit when
`config.FAHRENHEIT` is set, otherwise identity. -/
def temperature_2_unit (fahrenheit : Bool) (celsius : ℚ) : ℚ :=
  if fahrenheit then celsius * 9 / 5 + 32 else celsius

/-- Environment for `connect_wifi`: `isconn k` is the result of the k-th
call to `sta_if.isconnected()`; `rssi` is `sta_if.status('rssi')`. -/
structure WifiEnv where
  isconn : Nat → Bool
  rssi : Int

/-- Result of `connect_wifi`: the returned rssi or the raised
`RuntimeError('WiFi connection failed')`, plus how many `connect` requests
were issued and how many one-second polling attempts (loop-body
executions, each containing `utime.sleep(1)`) were performed. -/
structure ConnectResult where
  result : Except Unit Int
  connectRequests : Nat
  polls : Nat

/-- The polling loop of `connect_wifi`:
`while not sta_if.isconnected() and tries < config.MAX_TRIES: sleep(1); tries += 1`.
Each evaluation of the loop condition consumes one `isconnected()` call
(index `callIdx`).  Returns the index of the next unused `isconnected()`
call and the number of loop-body executions performed. -/
def connect_loop (env : WifiEnv) (callIdx tries maxTries : Nat) : Nat × Nat :=
  if env.isconn callIdx then (callIdx + 1, 0)
  else if h : tries < maxTries then
    let r := connect_loop env (callIdx + 1) (tries + 1) maxTries
    (r.1, r.2 + 1)
  else (callIdx + 1, 0)
termination_by maxTries - tries

/-- `connect_wifi()`: if not connected (call 0), issue one connect request
and poll; afterwards (and also in the already-connected case) one further
`isconnected()` call decides between returning the rssi and raising. -/
def connect_wifi (env : WifiEnv) (maxTries : Nat) : ConnectResult :=
  if env.isconn 0 then
    if env.isconn 1 then ⟨.ok env.rssi, 0, 0⟩ else ⟨.error (), 0, 0⟩
  else
    let r := connect_loop env 1 0 maxTries
    if env.isconn r.1 then ⟨.ok env.rssi, 1, r.2⟩ else ⟨.error (), 1, r.2⟩

lemma connect_loop_never (env : WifiEnv) (h : ∀ k, env.isconn k = false) :
    ∀ d t c, ∀ m, m - t = d → connect_loop env c t m = (c + d + 1, d) := by
  intro d
  induction d with
  | zero =>
      intro t c m hm
      unfold connect_loop
      rw [h c]
      simp only [Bool.false_eq_true, if_false]
      have : ¬ t < m := by omega
      simp [this]
  | succ d ih =>
      intro t c m hm
      unfold connect_loop
      rw [h c]
      simp only [Bool.false_eq_true, if_false]
      have hlt : t < m := by omega
      have := ih (t + 1) (c + 1) m (by omega)
      simp [hlt, this]
      omega

/-- The `main` sub-dictionary of the OpenWeather JSON response; each
expected key may be absent. -/
structure OWMain where
  temp : Option ℚ
  humidity : Option ℚ
  pressure : Option ℚ

/-- The OpenWeather HTTP response: status code and parsed JSON body
(the `main` key itself may be absent). -/
structure OWResponse where
  status_code : Int
  main : Option OWMain

/-- Failure modes of `get_weather_data`: a transport failure from
`urequests.get` propagated unchanged, the explicit
`RuntimeError('Webhook OpenWeather URL failed')` on a status code >= 400,
or the `KeyError` from a missing expected key. -/
inductive WeatherErr (ε : Type) where
  | transport (e : ε)
  | badStatus
  | missingKey

/-- The dictionary returned by `get_weather_data`. -/
structure OWData where
  ow_temp : ℚ
  ow_hum : ℚ
  ow_pres : ℚ
deriving DecidableEq

/-- `get_weather_data()`: issue the GET request (its outcome is `resp`),
raise on status >= 400, then extract `main.temp` (Kelvin, converted to
Celsius by subtracting 273.15 and then unit-converted), `main.humidity`
and `main.pressure`. -/
def get_weather_data (ε : Type) (fahrenheit : Bool) (resp : Except ε OWResponse) :
    Except (WeatherErr ε) OWData :=
  match resp with
  | .error e => .error (.transport e)
  | .ok r =>
      if r.status_code < 400 then
        match r.main with
        | none => .error .missingKey
        | some m =>
            match m.temp with
            | none => .error .missingKey
            | some t =>
                match m.humidity with
                | none => .error .missingKey
                | some h =>
                    match m.pressure with
                    | none => .error .missingKey
                    | some p =>
                        .ok ⟨temperature_2_unit fahrenheit (t - 27315 / 100), h, p⟩
      else .error .badStatus

/-- Failure modes of `get_sensor_readings`: the
`RuntimeError('Cannot find ... sensor')` raised when a bus address is
absent from the authoritative scan, or a failure propagated from a
sensor read. -/
inductive SensorErr where
  | notFound (addr : Nat)
  | readFail
deriving DecidableEq

/-- Environment for `get_sensor_readings`: `scan k` is the result of the
k-th `i2c.scan()` call; each sensor read may fail (the driver call
raises) or yield a value; `adc_u16` is the raw `adc.read_u16()` sample. -/
structure SensorEnv where
  scan : Nat → List Nat
  am2320_measure : Except Unit Unit
  am2320_temp : Except Unit ℚ
  am2320_hum : Except Unit ℚ
  bmp180_temp : Except Unit ℚ
  bmp180_pres : Except Unit ℚ
  bmp180_alt : Except Unit ℚ
  bh1750_lum : Except Unit ℚ
  adc_u16 : Nat

/-- The dictionary returned by `get_sensor_readings`. -/
structure SensorData where
  am2320_temp : ℚ
  am2320_hum : ℚ
  bmp180_temp : ℚ
  bmp180_pres : ℚ
  bmp180_alt : ℚ
  bh1750_lum : ℚ
  bat_volt : ℚ
deriving DecidableEq

/-- `get_sensor_readings()`: scan 0 is the discarded wake-up probe for the
AM2320; scan 1 must contain address 92 (AM2320), scan 2 address 119
(BMP180), scan 3 address 35 (BH1750).  Reads happen in source order;
`bmp180.pressure` is divided by 100 (Pa to hPa) and the battery voltage is
`3.3 * 1.27 * (read_u16() / 2^16)`. -/
def get_sensor_readings (fahrenheit : Bool) (env : SensorEnv) :
    Except SensorErr SensorData :=
  let _wakeupScan := env.scan 0
  if 92 ∈ env.scan 1 then
    match env.am2320_measure with
    | .error _ => .error .readFail
    | .ok _ =>
        match env.am2320_temp with
        | .error _ => .error .readFail
        | .ok tRaw =>
            match env.am2320_hum with
            | .error _ => .error .readFail
            | .ok hum =>
                if 119 ∈ env.scan 2 then
                  match env.bmp180_temp with
                  | .error _ => .error .readFail
                  | .ok bt =>
                      match env.bmp180_pres with
                      | .error _ => .error .readFail
                      | .ok bp =>
                          match env.bmp180_alt with
                          | .error _ => .error .readFail
                          | .ok ba =>
                              if 35 ∈ env.scan 3 then
                                match env.bh1750_lum with
                                | .error _ => .error .readFail
                                | .ok lum =>
                                    .ok ⟨temperature_2_unit fahrenheit tRaw, hum,
                                         temperature_2_unit fahrenheit bt, bp / 100, ba, lum,
                                         33 / 10 * (127 / 100) * ((env.adc_u16 : ℚ) / 2 ^ 16)⟩
                              else .error (.notFound 35)
                else .error (.notFound 119)
  else .error (.notFound 92)

/-- The string arguments substituted into the payload format strings of
`log_readings` (configuration strings plus the `str(...)` renderings of
the numeric readings). -/
structure PayloadArgs where
  city : String
  station_id : String
  ow_temp : String
  ow_hum : String
  ow_pres : String
  ac_temp : String
  ac_hum : String
  ac_pres : String
  ac_lum : String
  ac_batv : String
  ac_rssi : String

/-- The influxdb line-protocol payload built by `log_readings`: the
`forecasts` record then the `actuals` record, each of the form
`measurement,tags<space>fields<space>\r\n`. -/
def mkPayload (a : PayloadArgs) : String :=
  "forecasts,source=OpenWeatherMap,location=" ++ a.city
    ++ " ow_temp=" ++ a.ow_temp ++ ",ow_hum=" ++ a.ow_hum ++ ",ow_pres=" ++ a.ow_pres
    ++ " \r\n"
    ++ "actuals,source=" ++ a.station_id ++ ",location=" ++ a.city
    ++ " ac_temp=" ++ a.ac_temp ++ ",ac_hum=" ++ a.ac_hum ++ ",ac_pres=" ++ a.ac_pres
    ++ ",ac_lum=" ++ a.ac_lum ++ ",ac_batv=" ++ a.ac_batv ++ ",ac_rssi=" ++ a.ac_rssi
    ++ " \r\n"

/-- Environment for `log_readings`: outcomes of the three MQTT broker
operations inside the `try` block (client construction folded into
`connect`). -/
structure MqttEnv where
  connect : Except Unit Unit
  publish : Except Unit Unit
  disconnect : Except Unit Unit

/-- What `log_readings` did: the payload it built, whether the message
reached the broker, and whether the `except` handler ran
(`sys.print_exception` + `show_error`).  `log_readings` always returns
normally, so its result type carries no error case. -/
structure LogResult where
  payload : String
  published : Bool
  errorSignaled : Bool

/-- `log_readings(ow_data, sensor_data, wifi_rssi)`: build the payload,
then connect / publish / disconnect inside a `try` whose `except` clause
catches every exception, signals it and falls through to a normal
return. -/
def log_readings (env : MqttEnv) (a : PayloadArgs) : LogResult :=
  let payload := mkPayload a
  match env.connect with
  | .error _ => ⟨payload, false, true⟩
  | .ok _ =>
      match env.publish with
      | .error _ => ⟨payload, false, true⟩
      | .ok _ =>
          match env.disconnect with
          | .error _ => ⟨payload, true, true⟩
          | .ok _ => ⟨payload, true, false⟩

/-- The post-cycle power action of `run`: the `machine.reset()` on the
error path, staying active when the debug pin is low, or
`machine.deepsleep(ms)`. -/
inductive PowerAction where
  | reset
  | stayActive
  | deepsleepMs (ms : Nat)
deriving DecidableEq

/-- `deepsleep_till_next_cycle()`: `deepsleep(config.INTERVAL * 1000)` —
the interval is configured in seconds and passed in milliseconds. -/
def deepsleep_till_next_cycle (interval : Nat) : PowerAction :=
  .deepsleepMs (interval * 1000)

/-- Environment of one `run()` cycle: the collaborator behaviours of each
stage plus the sampled state of the debug pin (low = debugging). -/
structure RunEnv where
  wifi : WifiEnv
  owResp : Except Unit OWResponse
  sensors : SensorEnv
  mqtt : MqttEnv
  debugPinLow : Bool

/-- Observable trace of one `run()` cycle: which stages were entered,
whether `show_error` fired, and the final power action. -/
structure RunTrace where
  fetchRan : Bool
  sensorsRan : Bool
  publishRan : Bool
  errorSignaled : Bool
  outcome : PowerAction
deriving DecidableEq

/-- Rendering of the numeric readings by Python `str(...)`: `log_readings`
applies a fixed deterministic rendering to each value; it is passed to
`run` as the functions `renderQ` / `renderZ`. -/
def payloadOf (cfg : Config) (renderQ : ℚ → String) (renderZ : Int → String)
    (ow : OWData) (sd : SensorData) (rssi : Int) : PayloadArgs :=
  ⟨cfg.city, cfg.station_id,
   renderQ ow.ow_temp, renderQ ow.ow_hum, renderQ ow.ow_pres,
   renderQ sd.am2320_temp, renderQ sd.am2320_hum, renderQ sd.bmp180_pres,
   renderQ sd.bh1750_lum, renderQ sd.bat_volt, renderZ rssi⟩

/-- `run()`: the `try` block sequences connect_wifi, get_weather_data,
get_sensor_readings and log_readings; any exception escaping a stage is
caught by the `except` clause, which signals the error and resets the
device.  Otherwise the cycle completes and the debug pin decides between
staying active and deep sleep. -/
def run (cfg : Config) (renderQ : ℚ → String) (renderZ : Int → String)
    (env : RunEnv) : RunTrace :=
  match (connect_wifi env.wifi cfg.maxTries).result with
  | .error _ => ⟨false, false, false, true, .reset⟩
  | .ok rssi =>
      match get_weather_data Unit cfg.fahrenheit env.owResp with
      | .error _ => ⟨true, false, false, true, .reset⟩
      | .ok ow =>
          match get_sensor_readings cfg.fahrenheit env.sensors with
          | .error _ => ⟨true, true, false, true, .reset⟩
          | .ok sd =>
              let lr := log_readings env.mqtt (payloadOf cfg renderQ renderZ ow sd rssi)
              ⟨true, true, true, lr.errorSignaled,
               if env.debugPinLow then .stayActive
               else deepsleep_till_next_cycle cfg.interval⟩

/-! Concrete fixtures (used by witnesses and counterexamples). -/

/-- A configuration with Celsius, 900 s interval and 20 wifi tries. -/
def cfg0 : Config := ⟨"weerstation", "Gent", false, 900, 20⟩

/-- A wifi source that is always connected. -/
def wifiOk : WifiEnv := ⟨fun _ => true, -60⟩

/-- A wifi source for which `isconnected()` never returns true. -/
def wifiNever : WifiEnv := ⟨fun _ => false, 0⟩

/-- A successful OpenWeather response with temp 283.15 K. -/
def respOk : OWResponse := ⟨200, some ⟨some (28315 / 100), some 65, some 1013⟩⟩

/-- A sensor environment in which every probe and read succeeds. -/
def sensorsOk : SensorEnv :=
  ⟨fun _ => [92, 119, 35], .ok (), .ok 10, .ok 55, .ok 11, .ok 101300, .ok 15,
   .ok 5000, 32768⟩

/-- A broker on which connect, publish and disconnect all succeed. -/
def mqttOk : MqttEnv := ⟨.ok (), .ok (), .ok ()⟩

/-- A broker whose connect step fails. -/
def mqttConnFail : MqttEnv := ⟨.error (), .ok (), .ok ()⟩

/-- A fixed rendering for rationals (stand-in for Python `str`). -/
def renderQ0 : ℚ → String := fun _ => "0"

/-- A fixed rendering for integers (stand-in for Python `str`). -/
def renderZ0 : Int → String := fun _ => "0"

/-- A cycle in which everything succeeds except the broker connect. -/
def envPubFail : RunEnv := ⟨wifiOk, .ok respOk, sensorsOk, mqttConnFail, false⟩

/-- A cycle in which the forecast fetch fails at the transport level. -/
def envFetchFail : RunEnv := ⟨wifiOk, .error (), sensorsOk, mqttOk, false⟩

/-- A cycle in which every stage succeeds, debug pin high. -/
def envAllOk : RunEnv := ⟨wifiOk, .ok respOk, sensorsOk, mqttOk, false⟩

/-- Concrete payload arguments, all free of carriage returns. -/
def args0 : PayloadArgs :=
  ⟨"Gent", "weerstation", "10", "65", "1013", "11", "55", "1013", "5000", "4.1", "-60"⟩

/-! Helper lemmas shared between claims. -/

lemma log_readings_payload (env : MqttEnv) (a : PayloadArgs) :
    (log_readings env a).payload = mkPayload a := by
  unfold log_readings
  cases env.connect <;> cases env.publish <;> cases env.disconnect <;> rfl

lemma crFree_append {s t : String} (hs : '\r' ∉ s.data) (ht : '\r' ∉ t.data) :
    '\r' ∉ (s ++ t).data := by
  have dapp : (s ++ t).data = s.data ++ t.data := rfl
  rw [dapp]
  simp only [List.mem_append]
  rintro (h | h)
  · exact hs h
  · exact ht h

/-! Claim theorems. -/

/-- Claim C7: `temperature_2_unit` is pure and total with no failure mode;
with Fahrenheit configured it returns `c * 9 / 5 + 32` (so 0 maps to 32 and
100 maps to 212), otherwise it is the identity. -/
theorem temperature_2_unit_spec :
    (∀ c : ℚ, temperature_2_unit true c = c * 9 / 5 + 32) ∧
    (∀ c : ℚ, temperature_2_unit false c = c) ∧
    temperature_2_unit true 0 = 32 ∧
    temperature_2_unit true 100 = 212 := by
  refine ⟨fun c => rfl, fun c => rfl, ?_, ?_⟩ <;> norm_num [temperature_2_unit]

/-- Claim C3: against a connectivity source whose `isconnected()` never
returns true, `connect_wifi` issues exactly one connect request, performs
exactly `MAX_TRIES` one-second polling attempts, and fails with the
connectivity error. -/
theorem connect_wifi_never_connected (env : WifiEnv) (maxTries : Nat)
    (h : ∀ k, env.isconn k = false) :
    connect_wifi env maxTries = ⟨.error (), 1, maxTries⟩ := by
  have hl := connect_loop_never env h maxTries 0 1 maxTries (Nat.sub_zero maxTries)
  unfold connect_wifi
  rw [h 0]
  simp [hl, h]

/-- Witness for C3 at a concrete never-connected source with 3 tries. -/
theorem connect_wifi_never_connected_witness :
    connect_wifi wifiNever 3 = ⟨.error (), 1, 3⟩ :=
  connect_wifi_never_connected wifiNever 3 (fun _ => rfl)

/-- Claim C4: the first bus probe in `get_sensor_readings` is discarded —
the result of the collection never depends on scan 0 — and the AM2320
`SensorNotFoundError` (address 92) is raised exactly when the second,
authoritative probe (scan 1) does not report address 92.  In particular a
run whose first probe misses the sensor but whose second reports it
proceeds with no AM2320 presence error. -/
theorem get_sensor_readings_probe_policy (f : Bool) (env : SensorEnv) :
    (∀ s0 : List Nat,
      get_sensor_readings f
        { env with scan := fun k => if k = 0 then s0 else env.scan k } =
      get_sensor_readings f env) ∧
    (get_sensor_readings f env = .error (.notFound 92) ↔ 92 ∉ env.scan 1) := by
  constructor
  · intro s0
    simp [get_sensor_readings]
  · unfold get_sensor_readings
    by_cases h1 : 92 ∈ env.scan 1
    · simp only [h1, if_true]
      repeat' split
      all_goals simp [h1]
    · simp [h1]

/-- Claim C5: `get_weather_data` fails with `RemoteFetchError` (the status
raise or the missing-key raise) exactly when the status code is at least
400 or one of `main`, `main.temp`, `main.humidity`, `main.pressure` is
absent — so a missing reading is never silently defaulted — and a
transport failure of the GET request propagates unchanged. -/
theorem get_weather_data_error_characterization (ε : Type) (f : Bool) :
    (∀ e : ε, get_weather_data ε f (.error e) = .error (.transport e)) ∧
    (∀ r : OWResponse,
      (get_weather_data ε f (.ok r) = .error .badStatus ∨
       get_weather_data ε f (.ok r) = .error .missingKey) ↔
      (400 ≤ r.status_code ∨ r.main = none ∨
       ∃ m, r.main = some m ∧
         (m.temp = none ∨ m.humidity = none ∨ m.pressure = none))) := by
  refine ⟨fun e => rfl, fun r => ?_⟩
  rcases r with ⟨sc, main⟩
  unfold get_weather_data
  by_cases hs : sc < 400
  · have hs2 : ¬ (400 ≤ sc) := not_le.mpr hs
    rcases main with _ | m
    · simp [hs, hs2]
    · rcases m with ⟨t, h, p⟩
      rcases t with _ | t <;> rcases h with _ | h <;> rcases p with _ | p <;>
        simp [hs, hs2]
  · have hs2 : 400 ≤ sc := not_lt.mp hs
    simp [hs, hs2]

/-- Claim C6: on a successfully parsed response, `ow_temp` is the unit
conversion of `main.temp - 273.15` (Kelvin to Celsius then the configured
conversion, applied once), while humidity and pressure pass through
unconverted; with Fahrenheit configured, `main.temp = 283.15` yields
`ow_temp = 50`. -/
theorem get_weather_data_success_values (ε : Type) (f : Bool) (sc : Int)
    (t h p : ℚ) (hsc : sc < 400) :
    get_weather_data ε f (.ok ⟨sc, some ⟨some t, some h, some p⟩⟩) =
      .ok ⟨temperature_2_unit f (t - 27315 / 100), h, p⟩ ∧
    temperature_2_unit true (28315 / 100 - 27315 / 100) = 50 := by
  constructor
  · unfold get_weather_data
    simp [hsc]
  · norm_num [temperature_2_unit]

/-- Witness for C6 at the concrete 283.15 K response under Fahrenheit. -/
theorem get_weather_data_success_values_witness :
    get_weather_data Unit true (.ok ⟨200, some ⟨some (28315 / 100), some 65, some 1013⟩⟩) =
      .ok ⟨temperature_2_unit true (28315 / 100 - 27315 / 100), 65, 1013⟩ ∧
    temperature_2_unit true (28315 / 100 - 27315 / 100) = 50 :=
  get_weather_data_success_values Unit true 200 (28315 / 100) 65 1013 (by norm_num)

/-- Claim C1 counterexample: with the broker connect failing and every
earlier stage succeeding, the failure is caught inside `log_readings`
(the error is signaled) and `run` does not take the reset path — the
cycle completes normally, contradicting the claimed propagation to the
controller. -/
theorem publish_failure_propagation_counterexample :
    envPubFail.mqtt.connect = Except.error () ∧
    (run cfg0 renderQ0 renderZ0 envPubFail).publishRan = true ∧
    (run cfg0 renderQ0 renderZ0 envPubFail).errorSignaled = true ∧
    (run cfg0 renderQ0 renderZ0 envPubFail).outcome ≠ PowerAction.reset :=
  ⟨rfl, rfl, rfl, by decide⟩

/-- Claim C1 (amended): a transport or protocol failure during the broker
connect, send or disconnect steps is caught inside `log_readings`, which
signals the error and returns normally with the payload built; the
failure does not propagate to `run`. -/
theorem log_readings_catches_all (env : MqttEnv) (a : PayloadArgs)
    (h : env.connect = .error () ∨ env.publish = .error () ∨
         env.disconnect = .error ()) :
    (log_readings env a).errorSignaled = true ∧
    (log_readings env a).payload = mkPayload a := by
  refine ⟨?_, log_readings_payload env a⟩
  obtain ⟨c, p, d⟩ := env
  cases c <;> cases p <;> cases d <;> simp_all [log_readings]

/-- Witness for the amended C1 at a concrete failing broker connect. -/
theorem log_readings_catches_all_witness :
    (log_readings mqttConnFail args0).errorSignaled = true ∧
    (log_readings mqttConnFail args0).payload = mkPayload args0 :=
  log_readings_catches_all mqttConnFail args0 (Or.inl rfl)

/-- Claim C2: in a cycle whose forecast fetch fails, the sensor-collection
stage and the publish stage are never invoked (no partial publish). -/
theorem run_fetch_fail_no_partial (cfg : Config) (rq : ℚ → String)
    (rz : Int → String) (env : RunEnv) (e : WeatherErr Unit)
    (h : get_weather_data Unit cfg.fahrenheit env.owResp = .error e) :
    (run cfg rq rz env).sensorsRan = false ∧
    (run cfg rq rz env).publishRan = false := by
  unfold run
  cases hw : (connect_wifi env.wifi cfg.maxTries).result with
  | error u => simp
  | ok rssi => simp [h]

/-- Witness for C2 at a concrete cycle with a failing forecast transport. -/
theorem run_fetch_fail_no_partial_witness :
    (run cfg0 renderQ0 renderZ0 envFetchFail).sensorsRan = false ∧
    (run cfg0 renderQ0 renderZ0 envFetchFail).publishRan = false :=
  run_fetch_fail_no_partial cfg0 renderQ0 renderZ0 envFetchFail (.transport ()) rfl

/-- Claim C8: once a cycle completes (publish stage entered), the debug
pin decides the power transition: pin low keeps the process active with
no low-power transition, otherwise the device deep-sleeps for exactly the
configured interval in seconds, passed to the sleep primitive in
milliseconds. -/
theorem run_power_scheduling (cfg : Config) (rq : ℚ → String)
    (rz : Int → String) (env : RunEnv)
    (h : (run cfg rq rz env).publishRan = true) :
    (run cfg rq rz env).outcome =
      (if env.debugPinLow then PowerAction.stayActive
       else PowerAction.deepsleepMs (cfg.interval * 1000)) ∧
    deepsleep_till_next_cycle cfg.interval =
      PowerAction.deepsleepMs (cfg.interval * 1000) := by
  refine ⟨?_, rfl⟩
  cases hw : (connect_wifi env.wifi cfg.maxTries).result with
  | error u => simp [run, hw] at h
  | ok rssi =>
      cases hf : get_weather_data Unit cfg.fahrenheit env.owResp with
      | error e => simp [run, hw, hf] at h
      | ok ow =>
          cases hs : get_sensor_readings cfg.fahrenheit env.sensors with
          | error e => simp [run, hw, hf, hs] at h
          | ok sd => simp [run, hw, hf, hs, deepsleep_till_next_cycle]

/-- Witness for C8 at a fully successful cycle with the debug pin high. -/
theorem run_power_scheduling_witness :
    (run cfg0 renderQ0 renderZ0 envAllOk).outcome =
      (if envAllOk.debugPinLow then PowerAction.stayActive
       else PowerAction.deepsleepMs (cfg0.interval * 1000)) ∧
    deepsleep_till_next_cycle cfg0.interval =
      PowerAction.deepsleepMs (cfg0.interval * 1000) :=
  run_power_scheduling cfg0 renderQ0 renderZ0 envAllOk (by rfl)

/-- Claim C10: `log_readings` never raises — it always returns normally
with the payload it built — and a cycle whose publish fails is still
treated as complete by `run`: it proceeds to the power-scheduling step
rather than the error reset path. -/
theorem run_publish_failure_still_completes (cfg : Config) (rq : ℚ → String)
    (rz : Int → String) (env : RunEnv)
    (h : (run cfg rq rz env).publishRan = true) :
    (run cfg rq rz env).outcome ≠ PowerAction.reset ∧
    ∀ (menv : MqttEnv) (a : PayloadArgs),
      (log_readings menv a).payload = mkPayload a := by
  refine ⟨?_, fun menv a => log_readings_payload menv a⟩
  cases hw : (connect_wifi env.wifi cfg.maxTries).result with
  | error u => simp [run, hw] at h
  | ok rssi =>
      cases hf : get_weather_data Unit cfg.fahrenheit env.owResp with
      | error e => simp [run, hw, hf] at h
      | ok ow =>
          cases hs : get_sensor_readings cfg.fahrenheit env.sensors with
          | error e => simp [run, hw, hf, hs] at h
          | ok sd =>
              simp only [run, hw, hf, hs]
              split <;> simp [deepsleep_till_next_cycle]

/-- Witness for C10 at the concrete cycle whose broker connect fails. -/
theorem run_publish_failure_still_completes_witness :
    (run cfg0 renderQ0 renderZ0 envPubFail).outcome ≠ PowerAction.reset ∧
    ∀ (menv : MqttEnv) (a : PayloadArgs),
      (log_readings menv a).payload = mkPayload a :=
  run_publish_failure_still_completes cfg0 renderQ0 renderZ0 envPubFail (by rfl)

/-- Claim C9: the payload built by `log_readings` is deterministic — it
depends only on the payload arguments, not on the broker's behaviour —
and (when none of the substituted strings contains a carriage return) it
consists of exactly two records, the forecasts record then the actuals
record, each terminated by the record separator `\r\n`. -/
theorem mkPayload_two_records (a : PayloadArgs)
    (hc : '\r' ∉ a.city.data) (hst : '\r' ∉ a.station_id.data)
    (h1 : '\r' ∉ a.ow_temp.data) (h2 : '\r' ∉ a.ow_hum.data)
    (h3 : '\r' ∉ a.ow_pres.data) (h4 : '\r' ∉ a.ac_temp.data)
    (h5 : '\r' ∉ a.ac_hum.data) (h6 : '\r' ∉ a.ac_pres.data)
    (h7 : '\r' ∉ a.ac_lum.data) (h8 : '\r' ∉ a.ac_batv.data)
    (h9 : '\r' ∉ a.ac_rssi.data) :
    (∀ env1 env2 : MqttEnv,
      (log_readings env1 a).payload = (log_readings env2 a).payload) ∧
    ∃ r1 r2 : String,
      mkPayload a = r1 ++ "\r\n" ++ (r2 ++ "\r\n") ∧
      '\r' ∉ r1.data ∧ '\r' ∉ r2.data := by
  have dapp : ∀ s t : String, (s ++ t).data = s.data ++ t.data := fun s t => rfl
  have hlit : (" \r\n" : String).data =
      (" " : String).data ++ ("\r\n" : String).data := rfl
  refine ⟨fun env1 env2 =>
    (log_readings_payload env1 a).trans (log_readings_payload env2 a).symm,
    "forecasts,source=OpenWeatherMap,location=" ++ a.city
      ++ " ow_temp=" ++ a.ow_temp ++ ",ow_hum=" ++ a.ow_hum
      ++ ",ow_pres=" ++ a.ow_pres ++ " ",
    "actuals,source=" ++ a.station_id ++ ",location=" ++ a.city
      ++ " ac_temp=" ++ a.ac_temp ++ ",ac_hum=" ++ a.ac_hum
      ++ ",ac_pres=" ++ a.ac_pres ++ ",ac_lum=" ++ a.ac_lum
      ++ ",ac_batv=" ++ a.ac_batv ++ ",ac_rssi=" ++ a.ac_rssi ++ " ",
    ?_, ?_, ?_⟩
  · apply String.ext
    simp only [mkPayload, dapp, hlit, List.append_assoc, List.cons_append,
      List.nil_append]
  · repeat' apply crFree_append
    all_goals first | assumption | decide
  · repeat' apply crFree_append
    all_goals first | assumption | decide

/-- Witness for C9 at concrete carriage-return-free payload arguments. -/
theorem mkPayload_two_records_witness :
    (∀ env1 env2 : MqttEnv,
      (log_readings env1 args0).payload = (log_readings env2 args0).payload) ∧
    ∃ r1 r2 : String,
      mkPayload args0 = r1 ++ "\r\n" ++ (r2 ++ "\r\n") ∧
      '\r' ∉ r1.data ∧ '\r' ∉ r2.data :=
  mkPayload_two_records args0 (by decide) (by decide) (by decide) (by decide)
    (by decide) (by decide) (by decide) (by decide) (by decide) (by decide)
    (by decide)

end Meetstation
